import Mathlib

/-!
The step `gitopsUpdateDeployment`.

A shallow embedding of `cmd/gitopsUpdateDeployment.go`: the orchestration of one
GitOps deployment update (scratch directory, clone, branch switch, manifest
rendering through `kubectl` or `helm`, file write, commit and push).

The injected collaborators (`gitUtils`, `fileUtils`, `command`) are arbitrary
state machines over a world state `σ`; every call the run makes is recorded,
with its arguments and its error result, in a trace.
-/

namespace GitopsUpdateDeployment

/-! ## Errors -/

/-- Go `error` values that are not nil: `errors.New` and collaborator errors are
`new`, `errors.Wrap` adds a message in front of a cause. -/
inductive GoError where
  | new (message : String)
  | wrap (cause : GoError) (message : String)
  deriving DecidableEq, Repr

/-- The `Error()` method: a wrapped error prints its message, a colon and its cause. -/
def GoError.Error : GoError → String
  | .new message => message
  | .wrap cause message => message ++ ": " ++ cause.Error

/-- The errors an error wraps: its cause, the cause of its cause, and so on. -/
def GoError.causes : GoError → List GoError
  | .new _ => []
  | .wrap cause _ => cause :: cause.causes

/-- A Go `error`: `none` is nil. -/
abbrev error := Option GoError

/-- Function `errors.New`. -/
def errorsNew (message : String) : error := some (.new message)

/-- Function `errors.Wrap`: nil stays nil. -/
def errorsWrap (err : error) (message : String) : error :=
  match err with
  | none => none
  | some e => some (.wrap e message)

/-! ## Data -/

abbrev Bytes := List UInt8

/-- Type `plumbing.Hash`, a `[20]byte`. -/
abbrev Hash := List UInt8

/-- The zero value `[20]byte{}`. -/
def zeroHash : Hash := List.replicate 20 0

/-- The fields of `gitopsUpdateDeploymentOptions` the step reads. -/
structure gitopsUpdateDeploymentOptions where
  BranchName : String
  CommitMessage : String
  ServerURL : String
  Username : String
  Password : String
  FilePath : String
  ContainerName : String
  ContainerRegistryURL : String
  ContainerImageNameTag : String
  ChartPath : String
  HelmAdditionalValueFile : String
  HelmValueForRespositoryAndImageName : String
  HelmValueForImageVersion : String
  DeploymentName : String
  DeployTool : String
  deriving DecidableEq, Repr

/-- One call that leaves the step: a method of an injected collaborator or a
function of package `docker`, with its arguments. `Stdout` carries the index of
the buffer that becomes the runner's standard output. -/
inductive Call where
  | TempDir (dir pattern : String)
  | RemoveAll (path : String)
  | FileWrite (path : String) (content : Bytes) (perm : Nat)
  | CommitSingleFile (filePath commitMessage author : String)
  | PushChangesToRepository (username password : String)
  | PlainClone (username password serverURL directory : String)
  | ChangeBranch (branchName : String)
  | RunExecutable (executable : String) (params : List String)
  | Stdout (buffer : Nat)
  | ContainerRegistryFromURL (registryURL : String)
  | ContainerImageNameFromImage (fullImage : String)
  | ContainerImageTagFromImage (fullImage : String)
  deriving DecidableEq, Repr

/-- The method or function a call goes to. -/
inductive Method where
  | TempDir | RemoveAll | FileWrite | CommitSingleFile | PushChangesToRepository
  | PlainClone | ChangeBranch | RunExecutable | Stdout
  | ContainerRegistryFromURL | ContainerImageNameFromImage | ContainerImageTagFromImage
  deriving DecidableEq, Repr

def Call.method : Call → Method
  | .TempDir _ _ => .TempDir
  | .RemoveAll _ => .RemoveAll
  | .FileWrite _ _ _ => .FileWrite
  | .CommitSingleFile _ _ _ => .CommitSingleFile
  | .PushChangesToRepository _ _ => .PushChangesToRepository
  | .PlainClone _ _ _ _ => .PlainClone
  | .ChangeBranch _ => .ChangeBranch
  | .RunExecutable _ _ => .RunExecutable
  | .Stdout _ => .Stdout
  | .ContainerRegistryFromURL _ => .ContainerRegistryFromURL
  | .ContainerImageNameFromImage _ => .ContainerImageNameFromImage
  | .ContainerImageTagFromImage _ => .ContainerImageTagFromImage

/-- A call together with the error it returned (`none` for nil, and for `Stdout`,
which returns nothing) and the bytes the call wrote to the runner's standard
output (only `RunExecutable` writes any). -/
structure Event where
  call : Call
  err : error
  stdout : Bytes
  deriving DecidableEq, Repr

/-- What the step hands to the logging framework. -/
inductive LogEntry where
  | error (err : GoError) (message : String)
  | infof (format : String) (commit : Hash)
  deriving DecidableEq, Repr

/-- The collaborators of one run. The methods of `gitUtils`, `fileUtils` and
`command` act on a world state `σ` and may return anything; `RunExecutable` also
yields the bytes the external process writes to standard output. The three
functions of package `docker` are pure string functions. -/
structure Collaborators (σ : Type) where
  CommitSingleFile : String → String → String → σ → (Hash × error) × σ
  PushChangesToRepository : String → String → σ → error × σ
  PlainClone : String → String → String → String → σ → error × σ
  ChangeBranch : String → σ → error × σ
  TempDir : String → String → σ → (String × error) × σ
  RemoveAll : String → σ → error × σ
  FileWrite : String → Bytes → Nat → σ → error × σ
  RunExecutable : String → List String → σ → (Bytes × error) × σ
  Stdout : σ → σ
  ContainerRegistryFromURL : String → String × error
  ContainerImageNameFromImage : String → String × error
  ContainerImageTagFromImage : String → String × error

/-- The state of a run: the world of the collaborators, the calls made so far,
the in-memory buffers allocated so far, the buffer installed as the runner's
standard output (`none`: the writer the caller installed), and the log. -/
structure Machine (σ : Type) where
  world : σ
  trace : List Event
  buffers : List Bytes
  sink : Option Nat
  log : List LogEntry

/-- The state a run starts in. -/
def Machine.init {σ : Type} (w : σ) : Machine σ :=
  { world := w, trace := [], buffers := [], sink := none, log := [] }

/-! ## Path joining (`path/filepath`, Unix separator) -/

/-- Split a path at every slash. -/
def splitSlash : List Char → List (List Char)
  | [] => [[]]
  | ch :: rest =>
    if ch = '/' then [] :: splitSlash rest
    else
      match splitSlash rest with
      | [] => [[ch]]
      | e :: es => (ch :: e) :: es

/-- The element pass of `filepath.Clean`: empty and `.` elements are dropped,
`..` removes the element before it when there is one to remove. The output is
kept in reverse. -/
def cleanElems (rooted : Bool) : List (List Char) → List (List Char) → List (List Char)
  | out, [] => out.reverse
  | out, e :: es =>
    if e = [] ∨ e = ['.'] then cleanElems rooted out es
    else if e = ['.', '.'] then
      match out with
      | [] => if rooted then cleanElems rooted [] es else cleanElems rooted [e] es
      | top :: below =>
        if top = ['.', '.'] then cleanElems rooted (e :: out) es
        else cleanElems rooted below es
    else cleanElems rooted (e :: out) es

/-- Function `filepath.Clean`. -/
def filepathClean (path : String) : String :=
  if path = "" then "."
  else
    let rooted := path.data.head? = some '/'
    let out := cleanElems rooted [] (splitSlash path.data)
    let body := String.mk (List.intercalate ['/'] out)
    let res := (if rooted then "/" else "") ++ body
    if res = "" then "." else res

/-- Function `filepath.Join` on two elements: the first non-empty element starts
the joined path, which is then cleaned. -/
def filepathJoin (a b : String) : String :=
  if a ≠ "" then filepathClean (a ++ "/" ++ b)
  else if b ≠ "" then filepathClean b
  else ""

/-- A path of one element: no slash, not empty, neither `.` nor `..`. -/
def singleElement (s : String) : Prop :=
  '/' ∉ s.data ∧ s.data ≠ [] ∧ s.data ≠ ['.'] ∧ s.data ≠ ['.', '.']

instance (s : String) : Decidable (singleElement s) :=
  inferInstanceAs (Decidable ('/' ∉ s.data ∧ s.data ≠ [] ∧ s.data ≠ ['.'] ∧ s.data ≠ ['.', '.']))

/-! ## Calls -/

section Calls
variable {σ : Type}

def Machine.record (m : Machine σ) (w : σ) (call : Call) (err : error) (stdout : Bytes) :
    Machine σ :=
  { m with world := w, trace := m.trace ++ [{ call := call, err := err, stdout := stdout }] }

def callTempDir (c : Collaborators σ) (dir pattern : String) (m : Machine σ) :
    (String × error) × Machine σ :=
  let r := c.TempDir dir pattern m.world
  (r.1, m.record r.2 (.TempDir dir pattern) r.1.2 [])

def callRemoveAll (c : Collaborators σ) (path : String) (m : Machine σ) : error × Machine σ :=
  let r := c.RemoveAll path m.world
  (r.1, m.record r.2 (.RemoveAll path) r.1 [])

def callFileWrite (c : Collaborators σ) (path : String) (content : Bytes) (perm : Nat)
    (m : Machine σ) : error × Machine σ :=
  let r := c.FileWrite path content perm m.world
  (r.1, m.record r.2 (.FileWrite path content perm) r.1 [])

def callCommitSingleFile (c : Collaborators σ) (filePath commitMessage author : String)
    (m : Machine σ) : (Hash × error) × Machine σ :=
  let r := c.CommitSingleFile filePath commitMessage author m.world
  (r.1, m.record r.2 (.CommitSingleFile filePath commitMessage author) r.1.2 [])

def callPushChangesToRepository (c : Collaborators σ) (username password : String)
    (m : Machine σ) : error × Machine σ :=
  let r := c.PushChangesToRepository username password m.world
  (r.1, m.record r.2 (.PushChangesToRepository username password) r.1 [])

def callPlainClone (c : Collaborators σ) (username password serverURL directory : String)
    (m : Machine σ) : error × Machine σ :=
  let r := c.PlainClone username password serverURL directory m.world
  (r.1, m.record r.2 (.PlainClone username password serverURL directory) r.1 [])

def callChangeBranch (c : Collaborators σ) (branchName : String) (m : Machine σ) :
    error × Machine σ :=
  let r := c.ChangeBranch branchName m.world
  (r.1, m.record r.2 (.ChangeBranch branchName) r.1 [])

/-- Declaring `bytes.Buffer{}`: a fresh empty buffer, named by its index. -/
def newBuffer (m : Machine σ) : Nat × Machine σ :=
  (m.buffers.length, { m with buffers := m.buffers ++ [[]] })

/-- Method `Bytes()` of a buffer. -/
def bufferBytes (m : Machine σ) (buffer : Nat) : Bytes :=
  m.buffers.getD buffer []

/-- Method `Stdout(&buffer)` of the runner: from now on standard output goes to the buffer. -/
def callStdout (c : Collaborators σ) (buffer : Nat) (m : Machine σ) : Machine σ :=
  { m.record (c.Stdout m.world) (.Stdout buffer) none [] with sink := some buffer }

/-- Write to the runner's standard output. -/
def writeSink (m : Machine σ) (output : Bytes) : Machine σ :=
  match m.sink with
  | none => m
  | some buffer => { m with buffers := m.buffers.modify (fun b => b ++ output) buffer }

def callRunExecutable (c : Collaborators σ) (executable : String) (params : List String)
    (m : Machine σ) : error × Machine σ :=
  let r := c.RunExecutable executable params m.world
  (r.1.2, writeSink (m.record r.2 (.RunExecutable executable params) r.1.2 r.1.1) r.1.1)

def callContainerRegistryFromURL (c : Collaborators σ) (registryURL : String) (m : Machine σ) :
    (String × error) × Machine σ :=
  let r := c.ContainerRegistryFromURL registryURL
  (r, m.record m.world (.ContainerRegistryFromURL registryURL) r.2 [])

def callContainerImageNameFromImage (c : Collaborators σ) (fullImage : String) (m : Machine σ) :
    (String × error) × Machine σ :=
  let r := c.ContainerImageNameFromImage fullImage
  (r, m.record m.world (.ContainerImageNameFromImage fullImage) r.2 [])

def callContainerImageTagFromImage (c : Collaborators σ) (fullImage : String) (m : Machine σ) :
    (String × error) × Machine σ :=
  let r := c.ContainerImageTagFromImage fullImage
  (r, m.record m.world (.ContainerImageTagFromImage fullImage) r.2 [])

def logError (err : GoError) (message : String) (m : Machine σ) : Machine σ :=
  { m with log := m.log ++ [.error err message] }

def logInfof (format : String) (commit : Hash) (m : Machine σ) : Machine σ :=
  { m with log := m.log ++ [.infof format commit] }

end Calls

/-! ## The step -/

section Step
variable {σ : Type}

def extractTagFromImageNameTag (c : Collaborators σ) (config : gitopsUpdateDeploymentOptions)
    (m : Machine σ) : (String × error) × Machine σ :=
  match callContainerImageTagFromImage c config.ContainerImageNameTag m with
  | ((_, some err), m) => (("", errorsWrap (some err) "image name could not be extracted"), m)
  | ((imageTag, none), m) => ((imageTag, none), m)

def buildRegistryPlusImage (c : Collaborators σ) (config : gitopsUpdateDeploymentOptions)
    (m : Machine σ) : (String × error) × Machine σ :=
  let registryURL := config.ContainerRegistryURL
  if registryURL = "" then ((config.ContainerImageNameTag, none), m)
  else
    match callContainerRegistryFromURL c registryURL m with
    | ((_, some err), m) => (("", errorsWrap (some err) "registry URL could not be extracted"), m)
    | ((url, none), m) =>
      let url := if url ≠ "" then url ++ "/" else url
      ((url ++ config.ContainerImageNameTag, none), m)

def buildRegistryPlusImageWithoutTag (c : Collaborators σ)
    (config : gitopsUpdateDeploymentOptions) (m : Machine σ) : (String × error) × Machine σ :=
  let registryURL := config.ContainerRegistryURL
  let continue_ (url : String) (m : Machine σ) : (String × error) × Machine σ :=
    match callContainerImageNameFromImage c config.ContainerImageNameTag m with
    | ((_, some err), m) => (("", errorsWrap (some err) "image name could not be extracted"), m)
    | ((imageName, none), m) => ((url ++ imageName, none), m)
  if registryURL ≠ "" then
    match callContainerRegistryFromURL c registryURL m with
    | ((_, some err), m) => (("", errorsWrap (some err) "registry URL could not be extracted"), m)
    | ((containerURL, none), m) =>
      let containerURL := if containerURL ≠ "" then containerURL ++ "/" else containerURL
      continue_ containerURL m
  else continue_ "" m

def runKubeCtlCommand (c : Collaborators σ) (patchString filePath : String) (m : Machine σ) :
    (Bytes × error) × Machine σ :=
  let (kubectlOutput, m) := newBuffer m
  let m := callStdout c kubectlOutput m
  let kubeParams := [
    "patch",
    "--local",
    "--output=yaml",
    "--patch=" ++ patchString,
    "--filename=" ++ filePath]
  match callRunExecutable c "kubectl" kubeParams m with
  | (some err, m) => (([], errorsWrap (some err) "failed to apply kubectl command"), m)
  | (none, m) => ((bufferBytes m kubectlOutput, none), m)

def runHelmCommand (c : Collaborators σ) (config : gitopsUpdateDeploymentOptions)
    (m : Machine σ) : (Bytes × error) × Machine σ :=
  let (helmOutput, m) := newBuffer m
  let m := callStdout c helmOutput m
  match buildRegistryPlusImageWithoutTag c config m with
  | ((_, some err), m) => (([], errorsWrap (some err) "failed to extract registry URL and image"), m)
  | ((registryImage, none), m) =>
    match extractTagFromImageNameTag c config m with
    | ((_, some err), m) => (([], errorsWrap (some err) "failed to extract image tag"), m)
    | ((imageTag, none), m) =>
      let helmParams := [
        "template",
        config.DeploymentName,
        config.ChartPath,
        "--values=" ++ config.HelmAdditionalValueFile,
        "--set=" ++ config.HelmValueForRespositoryAndImageName ++ "=" ++ registryImage,
        "--set=" ++ config.HelmValueForImageVersion ++ "=" ++ imageTag]
      match callRunExecutable c "helm" helmParams m with
      | (some err, m) => (([], errorsWrap (some err) "failed to execute helm command"), m)
      | (none, m) => ((bufferBytes m helmOutput, none), m)

def commitAndPushChanges (c : Collaborators σ) (config : gitopsUpdateDeploymentOptions)
    (m : Machine σ) : (Hash × error) × Machine σ :=
  match callCommitSingleFile c config.FilePath config.CommitMessage config.Username m with
  | ((_, some err), m) => ((zeroHash, errorsWrap (some err) "committing changes failed"), m)
  | ((commit, none), m) =>
    match callPushChangesToRepository c config.Username config.Password m with
    | (some err, m) => ((zeroHash, errorsWrap (some err) "pushing changes failed"), m)
    | (none, m) => ((commit, none), m)

/-- The JSON merge patch handed to `kubectl patch`. -/
def patchString (containerName registryImage : String) : String :=
  "\x7b\"spec\":\x7b\"template\":\x7b\"spec\":\x7b\"containers\":[\x7b\"name\":\"" ++ containerName
    ++ "\",\"image\":\"" ++ registryImage ++ "\"\x7d]\x7d\x7d\x7d\x7d"

/-- The dispatch on `config.DeployTool` in `runGitopsUpdateDeployment`. -/
def buildOutput (c : Collaborators σ) (config : gitopsUpdateDeploymentOptions)
    (filePath : String) (m : Machine σ) : (Bytes × error) × Machine σ :=
  if config.DeployTool = "kubectl" then
    match buildRegistryPlusImage c config m with
    | ((_, some err), m) => (([], errorsWrap (some err) "failed to apply kubectl command"), m)
    | ((registryImage, none), m) =>
      match runKubeCtlCommand c (patchString config.ContainerName registryImage) filePath m with
      | ((_, some err), m) => (([], errorsWrap (some err) "failed to apply kubectl command"), m)
      | ((outputBytes, none), m) => ((outputBytes, none), m)
  else if config.DeployTool = "helm" then
    match runHelmCommand c config m with
    | ((_, some err), m) => (([], errorsWrap (some err) "failed to apply helm command"), m)
    | ((outputBytes, none), m) => ((outputBytes, none), m)
  else
    (([], errorsNew ("deploy tool " ++ config.DeployTool ++ " is not supported")), m)

/-- The body of `runGitopsUpdateDeployment` after the deferred cleanup is registered. -/
def runAfterDefer (c : Collaborators σ) (config : gitopsUpdateDeploymentOptions)
    (temporaryFolder : String) (m : Machine σ) : error × Machine σ :=
  match callPlainClone c config.Username config.Password config.ServerURL temporaryFolder m with
  | (some err, m) => (errorsWrap (some err) "failed to plain clone repository", m)
  | (none, m) =>
    match callChangeBranch c config.BranchName m with
    | (some err, m) => (errorsWrap (some err) "failed to change branch", m)
    | (none, m) =>
      let filePath := filepathJoin temporaryFolder config.FilePath
      match buildOutput c config filePath m with
      | ((_, some err), m) => (some err, m)
      | ((outputBytes, none), m) =>
        match callFileWrite c filePath outputBytes 0o755 m with
        | (some err, m) => (errorsWrap (some err) "failed to write file", m)
        | (none, m) =>
          match commitAndPushChanges c config m with
          | ((_, some err), m) => (errorsWrap (some err) "failed to commit and push changes", m)
          | ((commit, none), m) => (none, logInfof "Changes committed with %s" commit m)

/-- The deferred function: remove the directory, log a failure, return nothing. -/
def deferredCleanup (c : Collaborators σ) (temporaryFolder : String) (m : Machine σ) :
    Machine σ :=
  match callRemoveAll c temporaryFolder m with
  | (some err, m) => logError err "error during temporary directory deletion" m
  | (none, m) => m

def runGitopsUpdateDeployment (c : Collaborators σ) (config : gitopsUpdateDeploymentOptions)
    (m : Machine σ) : error × Machine σ :=
  match callTempDir c "." "temp-" m with
  | ((_, some err), m) => (errorsWrap (some err) "failed to create temporary directory", m)
  | ((temporaryFolder, none), m) =>
    let r := runAfterDefer c config temporaryFolder m
    (r.1, deferredCleanup c temporaryFolder r.2)

end Step

/-! ## Example collaborators -/

/-- Collaborators without state whose every call succeeds: the directory is
`temp-1`, the external process prints the bytes 1, 2, 3. -/
def okCollaborators : Collaborators Unit where
  CommitSingleFile _ _ _ w := ((zeroHash, none), w)
  PushChangesToRepository _ _ w := (none, w)
  PlainClone _ _ _ _ w := (none, w)
  ChangeBranch _ w := (none, w)
  TempDir _ _ w := (("temp-1", none), w)
  RemoveAll _ w := (none, w)
  FileWrite _ _ _ w := (none, w)
  RunExecutable _ _ w := (([1, 2, 3], none), w)
  Stdout w := w
  ContainerRegistryFromURL _ := ("reg.example.com", none)
  ContainerImageNameFromImage _ := ("img", none)
  ContainerImageTagFromImage _ := ("v2", none)

/-- The request of scenario A. -/
def kubectlConfig : gitopsUpdateDeploymentOptions where
  BranchName := "main"
  CommitMessage := "update"
  ServerURL := "https://git.example.com/repo.git"
  Username := "user"
  Password := "secret"
  FilePath := "deploy.yaml"
  ContainerName := "app"
  ContainerRegistryURL := ""
  ContainerImageNameTag := "img:v1"
  ChartPath := ""
  HelmAdditionalValueFile := ""
  HelmValueForRespositoryAndImageName := ""
  HelmValueForImageVersion := ""
  DeploymentName := ""
  DeployTool := "kubectl"

/-- A request on the helm path, with the value names of scenario B. -/
def helmConfig : gitopsUpdateDeploymentOptions where
  BranchName := "main"
  CommitMessage := "update"
  ServerURL := "https://git.example.com/repo.git"
  Username := "user"
  Password := "secret"
  FilePath := "deploy.yaml"
  ContainerName := ""
  ContainerRegistryURL := "https://reg.example.com"
  ContainerImageNameTag := "img:v2"
  ChartPath := "./chart"
  HelmAdditionalValueFile := "vals.yaml"
  HelmValueForRespositoryAndImageName := "image.repository"
  HelmValueForImageVersion := "image.tag"
  DeploymentName := "app"
  DeployTool := "helm"

/-- The request of scenario A with a deploy tool the step does not know. -/
def dockerConfig : gitopsUpdateDeploymentOptions :=
  { kubectlConfig with DeployTool := "docker" }

/-- The request of scenario A with a registry URL. -/
def registryConfig : gitopsUpdateDeploymentOptions :=
  { kubectlConfig with ContainerRegistryURL := "https://reg.example.com" }

/-- Collaborators whose `TempDir` fails. -/
def tempDirFails : Collaborators Unit :=
  { okCollaborators with
    TempDir := fun _ _ w => (("", some (.new "no space left on device")), w) }

/-- Collaborators whose `TempDir` returns the directory `./temp-1`. -/
def dotWorkspace : Collaborators Unit :=
  { okCollaborators with TempDir := fun _ _ w => (("./temp-1", none), w) }

/-- Collaborators whose `ChangeBranch` fails. -/
def branchFails : Collaborators Unit :=
  { okCollaborators with ChangeBranch := fun _ w => (some (.new "no such branch"), w) }

/-- Collaborators whose `RemoveAll` fails. -/
def removeAllFails : Collaborators Unit :=
  { okCollaborators with RemoveAll := fun _ w => (some (.new "directory busy"), w) }

/-- Collaborators whose `CommitSingleFile` fails. -/
def commitFails : Collaborators Unit :=
  { okCollaborators with
    CommitSingleFile := fun _ _ _ w => ((zeroHash, some (.new "nothing to commit")), w) }

/-- Collaborators whose `RunExecutable` fails after printing the byte 7. -/
def runFails : Collaborators Unit :=
  { okCollaborators with
    RunExecutable := fun _ _ w => (([7], some (.new "exit status 1")), w) }

/-- Collaborators whose tag function fails. -/
def tagFails : Collaborators Unit :=
  { okCollaborators with
    ContainerImageTagFromImage := fun _ => ("", some (.new "invalid reference format")) }

/-- Collaborators whose registry function succeeds with an empty host. -/
def emptyHost : Collaborators Unit :=
  { okCollaborators with ContainerRegistryFromURL := fun _ => ("", none) }

/-! ## Reading a trace -/

/-- The calls of a trace that went to the runner (`Stdout` or `RunExecutable`), in order. -/
def runnerCalls (trace : List Event) : List Call :=
  (trace.map Event.call).filter
    (fun cl => cl.method = .Stdout ∨ cl.method = .RunExecutable)

/-- The calls of a trace that went to the given method, in order. -/
def callsTo (k : Method) (trace : List Event) : List Call :=
  (trace.map Event.call).filter (fun cl => cl.method = k)

/-! ## The shapes of a run

Every way the step can go, as the error it returns and the events it adds to the
trace. The theorems of the next section are read off these shapes. -/

section Shapes
variable {σ : Type}

/-- The events of a registry lookup that succeeds: none without a registry URL. -/
def registryEvents (config : gitopsUpdateDeploymentOptions) : List Event :=
  if config.ContainerRegistryURL = "" then []
  else [⟨.ContainerRegistryFromURL config.ContainerRegistryURL, none, []⟩]

/-- The ways of `runHelmCommand`: returned bytes, returned error and added events,
for the buffer index `k`. -/
inductive HelmShape (config : gitopsUpdateDeploymentOptions) (k : Nat) :
    Bytes → error → List Event → Prop where
  | registryFailed (e : GoError) : config.ContainerRegistryURL ≠ "" →
      HelmShape config k []
        (some (.wrap (.wrap e "registry URL could not be extracted")
          "failed to extract registry URL and image"))
        [⟨.Stdout k, none, []⟩,
         ⟨.ContainerRegistryFromURL config.ContainerRegistryURL, some e, []⟩]
  | nameFailed (reg : List Event) (e : GoError) : reg = registryEvents config →
      HelmShape config k []
        (some (.wrap (.wrap e "image name could not be extracted")
          "failed to extract registry URL and image"))
        (⟨.Stdout k, none, []⟩ :: reg ++
          [⟨.ContainerImageNameFromImage config.ContainerImageNameTag, some e, []⟩])
  | tagFailed (reg : List Event) (e : GoError) : reg = registryEvents config →
      HelmShape config k []
        (some (.wrap (.wrap e "image name could not be extracted") "failed to extract image tag"))
        (⟨.Stdout k, none, []⟩ :: reg ++
          [⟨.ContainerImageNameFromImage config.ContainerImageNameTag, none, []⟩,
           ⟨.ContainerImageTagFromImage config.ContainerImageNameTag, some e, []⟩])
  | runFailed (reg : List Event) (n t : String) (e : GoError) (out : Bytes) :
      reg = registryEvents config →
      HelmShape config k [] (some (.wrap e "failed to execute helm command"))
        (⟨.Stdout k, none, []⟩ :: reg ++
          [⟨.ContainerImageNameFromImage config.ContainerImageNameTag, none, []⟩,
           ⟨.ContainerImageTagFromImage config.ContainerImageNameTag, none, []⟩,
           ⟨.RunExecutable "helm" ["template", config.DeploymentName, config.ChartPath,
              "--values=" ++ config.HelmAdditionalValueFile,
              "--set=" ++ config.HelmValueForRespositoryAndImageName ++ "=" ++ n,
              "--set=" ++ config.HelmValueForImageVersion ++ "=" ++ t], some e, out⟩])
  | ok (reg : List Event) (n t : String) (out : Bytes) : reg = registryEvents config →
      HelmShape config k out none
        (⟨.Stdout k, none, []⟩ :: reg ++
          [⟨.ContainerImageNameFromImage config.ContainerImageNameTag, none, []⟩,
           ⟨.ContainerImageTagFromImage config.ContainerImageNameTag, none, []⟩,
           ⟨.RunExecutable "helm" ["template", config.DeploymentName, config.ChartPath,
              "--values=" ++ config.HelmAdditionalValueFile,
              "--set=" ++ config.HelmValueForRespositoryAndImageName ++ "=" ++ n,
              "--set=" ++ config.HelmValueForImageVersion ++ "=" ++ t], none, out⟩])

/-- The ways of the dispatch on the deploy tool, for the manifest path `filePath`
and the buffer index `k`. -/
inductive BuilderShape (c : Collaborators σ) (config : gitopsUpdateDeploymentOptions)
    (filePath : String) (k : Nat) : Bytes → error → List Event → Prop where
  | unsupported : config.DeployTool ≠ "kubectl" → config.DeployTool ≠ "helm" →
      BuilderShape c config filePath k []
        (some (.new ("deploy tool " ++ config.DeployTool ++ " is not supported"))) []
  | kubectlRegistryFailed (e : GoError) : config.DeployTool = "kubectl" →
      config.ContainerRegistryURL ≠ "" →
      BuilderShape c config filePath k []
        (some (.wrap (.wrap e "registry URL could not be extracted")
          "failed to apply kubectl command"))
        [⟨.ContainerRegistryFromURL config.ContainerRegistryURL, some e, []⟩]
  | kubectlRunFailed (reg : List Event) (r : String) (e : GoError) (out : Bytes) :
      reg = registryEvents config → config.DeployTool = "kubectl" →
      (∀ m : Machine σ, (buildRegistryPlusImage c config m).1 = (r, none)) →
      BuilderShape c config filePath k []
        (some (.wrap (.wrap e "failed to apply kubectl command")
          "failed to apply kubectl command"))
        (reg ++
          [⟨.Stdout k, none, []⟩,
           ⟨.RunExecutable "kubectl" ["patch", "--local", "--output=yaml",
              "--patch=" ++ patchString config.ContainerName r, "--filename=" ++ filePath],
            some e, out⟩])
  | kubectlOk (reg : List Event) (r : String) (out : Bytes) :
      reg = registryEvents config → config.DeployTool = "kubectl" →
      (∀ m : Machine σ, (buildRegistryPlusImage c config m).1 = (r, none)) →
      BuilderShape c config filePath k out none
        (reg ++
          [⟨.Stdout k, none, []⟩,
           ⟨.RunExecutable "kubectl" ["patch", "--local", "--output=yaml",
              "--patch=" ++ patchString config.ContainerName r, "--filename=" ++ filePath],
            none, out⟩])
  | helmFailed (out : Bytes) (e : GoError) (evs : List Event) :
      config.DeployTool ≠ "kubectl" → config.DeployTool = "helm" →
      HelmShape config k out (some e) evs →
      BuilderShape c config filePath k [] (some (.wrap e "failed to apply helm command")) evs
  | helmOk (out : Bytes) (evs : List Event) :
      config.DeployTool ≠ "kubectl" → config.DeployTool = "helm" →
      HelmShape config k out none evs →
      BuilderShape c config filePath k out none evs

/-- The ways of `runGitopsUpdateDeployment` after the cleanup is registered, for
the directory `d`. -/
inductive AfterShape (c : Collaborators σ) (config : gitopsUpdateDeploymentOptions)
    (d : String) (k : Nat) : error → List Event → Prop where
  | cloneFailed (e : GoError) :
      AfterShape c config d k (some (.wrap e "failed to plain clone repository"))
        [⟨.PlainClone config.Username config.Password config.ServerURL d, some e, []⟩]
  | branchFailed (e : GoError) :
      AfterShape c config d k (some (.wrap e "failed to change branch"))
        [⟨.PlainClone config.Username config.Password config.ServerURL d, none, []⟩,
         ⟨.ChangeBranch config.BranchName, some e, []⟩]
  | buildFailed (out : Bytes) (e : GoError) (evs : List Event) :
      BuilderShape c config (filepathJoin d config.FilePath) k out (some e) evs →
      AfterShape c config d k (some e)
        (⟨.PlainClone config.Username config.Password config.ServerURL d, none, []⟩ ::
         ⟨.ChangeBranch config.BranchName, none, []⟩ :: evs)
  | writeFailed (out : Bytes) (e : GoError) (evs : List Event) :
      BuilderShape c config (filepathJoin d config.FilePath) k out none evs →
      AfterShape c config d k (some (.wrap e "failed to write file"))
        (⟨.PlainClone config.Username config.Password config.ServerURL d, none, []⟩ ::
         ⟨.ChangeBranch config.BranchName, none, []⟩ :: evs ++
         [⟨.FileWrite (filepathJoin d config.FilePath) out 0o755, some e, []⟩])
  | commitFailed (out : Bytes) (e : GoError) (evs : List Event) :
      BuilderShape c config (filepathJoin d config.FilePath) k out none evs →
      AfterShape c config d k
        (some (.wrap (.wrap e "committing changes failed") "failed to commit and push changes"))
        (⟨.PlainClone config.Username config.Password config.ServerURL d, none, []⟩ ::
         ⟨.ChangeBranch config.BranchName, none, []⟩ :: evs ++
         [⟨.FileWrite (filepathJoin d config.FilePath) out 0o755, none, []⟩,
          ⟨.CommitSingleFile config.FilePath config.CommitMessage config.Username, some e, []⟩])
  | pushFailed (out : Bytes) (e : GoError) (evs : List Event) :
      BuilderShape c config (filepathJoin d config.FilePath) k out none evs →
      AfterShape c config d k
        (some (.wrap (.wrap e "pushing changes failed") "failed to commit and push changes"))
        (⟨.PlainClone config.Username config.Password config.ServerURL d, none, []⟩ ::
         ⟨.ChangeBranch config.BranchName, none, []⟩ :: evs ++
         [⟨.FileWrite (filepathJoin d config.FilePath) out 0o755, none, []⟩,
          ⟨.CommitSingleFile config.FilePath config.CommitMessage config.Username, none, []⟩,
          ⟨.PushChangesToRepository config.Username config.Password, some e, []⟩])
  | ok (out : Bytes) (evs : List Event) :
      BuilderShape c config (filepathJoin d config.FilePath) k out none evs →
      AfterShape c config d k none
        (⟨.PlainClone config.Username config.Password config.ServerURL d, none, []⟩ ::
         ⟨.ChangeBranch config.BranchName, none, []⟩ :: evs ++
         [⟨.FileWrite (filepathJoin d config.FilePath) out 0o755, none, []⟩,
          ⟨.CommitSingleFile config.FilePath config.CommitMessage config.Username, none, []⟩,
          ⟨.PushChangesToRepository config.Username config.Password, none, []⟩])

/-- The ways of `runGitopsUpdateDeployment` from the initial state with world `w`. -/
inductive RunShape (c : Collaborators σ) (config : gitopsUpdateDeploymentOptions) (w : σ) :
    error → List Event → Prop where
  | tempDirFailed (e : GoError) : (c.TempDir "." "temp-" w).1.2 = some e →
      RunShape c config w (some (.wrap e "failed to create temporary directory"))
        [⟨.TempDir "." "temp-", some e, []⟩]
  | cleaned (d : String) (res r : error) (evs : List Event) :
      (c.TempDir "." "temp-" w).1 = (d, none) →
      AfterShape c config d 0 res evs →
      RunShape c config w res
        (⟨.TempDir "." "temp-", none, []⟩ :: evs ++ [⟨.RemoveAll d, r, []⟩])

end Shapes

/-! ## Theorems -/

section Theorems
variable {σ : Type}

theorem modify_fresh {α : Type} (f : α → α) (l : List α) (x : α) :
    (l ++ [x]).modify f l.length = l ++ [f x] := by
  induction l with
  | nil => rfl
  | cons a l ih => simp [ih]

theorem getD_fresh {α : Type} (l : List α) (x d : α) : (l ++ [x]).getD l.length d = x := by
  induction l with
  | nil => rfl
  | cons a l ih => simp [ih]

theorem runHelmCommand_shape (c : Collaborators σ) (config : gitopsUpdateDeploymentOptions)
    (m : Machine σ) :
    ∃ out err evs, (runHelmCommand c config m).1 = (out, err) ∧
      (runHelmCommand c config m).2.trace = m.trace ++ evs ∧
      HelmShape config m.buffers.length out err evs := by
  rcases hN : c.ContainerImageNameFromImage config.ContainerImageNameTag with ⟨nm, en⟩
  rcases hT : c.ContainerImageTagFromImage config.ContainerImageNameTag with ⟨tg, et⟩
  rcases hR : c.ContainerRegistryFromURL config.ContainerRegistryURL with ⟨u, eu⟩
  by_cases h0 : config.ContainerRegistryURL = "" <;> cases en <;> cases et <;> cases eu <;>
    simp [runHelmCommand, buildRegistryPlusImageWithoutTag, h0,
          callContainerImageNameFromImage, hN, errorsWrap, newBuffer, callStdout,
          Machine.record, extractTagFromImageNameTag,
          callContainerImageTagFromImage, hT, callContainerRegistryFromURL, hR,
          callRunExecutable, writeSink]
  all_goals try
    generalize c.RunExecutable "helm" _ (c.Stdout m.world) = r
    rcases r with ⟨⟨out, e⟩, w1⟩
    cases e <;> simp [bufferBytes, modify_fresh, getD_fresh]
  all_goals first
    | exact ⟨_, _, ⟨rfl, rfl⟩, HelmShape.registryFailed _ h0⟩
    | exact ⟨_, _, ⟨rfl, rfl⟩, HelmShape.nameFailed [] _ (by simp [registryEvents, h0])⟩
    | exact ⟨_, _, ⟨rfl, rfl⟩, HelmShape.nameFailed [_] _ (by simp [registryEvents, h0])⟩
    | exact ⟨_, _, ⟨rfl, rfl⟩, HelmShape.tagFailed [] _ (by simp [registryEvents, h0])⟩
    | exact ⟨_, _, ⟨rfl, rfl⟩, HelmShape.tagFailed [_] _ (by simp [registryEvents, h0])⟩
    | exact ⟨_, _, ⟨rfl, rfl⟩, HelmShape.runFailed [] _ _ _ _ (by simp [registryEvents, h0])⟩
    | exact ⟨_, _, ⟨rfl, rfl⟩, HelmShape.runFailed [_] _ _ _ _ (by simp [registryEvents, h0])⟩
    | exact ⟨_, _, ⟨rfl, rfl⟩, HelmShape.ok [] _ _ _ (by simp [registryEvents, h0])⟩
    | exact ⟨_, _, ⟨rfl, rfl⟩, HelmShape.ok [_] _ _ _ (by simp [registryEvents, h0])⟩

theorem buildOutput_shape (c : Collaborators σ) (config : gitopsUpdateDeploymentOptions)
    (filePath : String) (m : Machine σ) :
    ∃ out err evs, (buildOutput c config filePath m).1 = (out, err) ∧
      (buildOutput c config filePath m).2.trace = m.trace ++ evs ∧
      BuilderShape c config filePath m.buffers.length out err evs := by
  by_cases hk : config.DeployTool = "kubectl"
  · rcases hR : c.ContainerRegistryFromURL config.ContainerRegistryURL with ⟨u, eu⟩
    by_cases h0 : config.ContainerRegistryURL = "" <;> cases eu <;>
      simp [buildOutput, hk, buildRegistryPlusImage, h0, callContainerRegistryFromURL, hR,
        runKubeCtlCommand, newBuffer, callStdout, callRunExecutable, Machine.record,
        errorsWrap, writeSink]
    all_goals try
      generalize c.RunExecutable "kubectl" _ (c.Stdout m.world) = r
      rcases r with ⟨⟨out, e⟩, w1⟩
      cases e <;> simp [bufferBytes, modify_fresh, getD_fresh]
    all_goals first
      | exact ⟨_, _, ⟨rfl, rfl⟩, BuilderShape.kubectlRegistryFailed _ hk h0⟩
      | exact ⟨_, _, ⟨rfl, rfl⟩, BuilderShape.kubectlRunFailed [] _ _ _
          (by simp [registryEvents, h0]) hk (fun m => by
            simp [buildRegistryPlusImage, h0, callContainerRegistryFromURL, hR])⟩
      | exact ⟨_, _, ⟨rfl, rfl⟩, BuilderShape.kubectlRunFailed [_] _ _ _
          (by simp [registryEvents, h0]) hk (fun m => by
            simp [buildRegistryPlusImage, h0, callContainerRegistryFromURL, hR])⟩
      | exact ⟨_, _, ⟨rfl, rfl⟩, BuilderShape.kubectlOk [] _ _
          (by simp [registryEvents, h0]) hk (fun m => by
            simp [buildRegistryPlusImage, h0, callContainerRegistryFromURL, hR])⟩
      | exact ⟨_, _, ⟨rfl, rfl⟩, BuilderShape.kubectlOk [_] _ _
          (by simp [registryEvents, h0]) hk (fun m => by
            simp [buildRegistryPlusImage, h0, callContainerRegistryFromURL, hR])⟩
  · by_cases hh : config.DeployTool = "helm"
    · obtain ⟨out, err, evs, h1, h2, hs⟩ := runHelmCommand_shape c config m
      rcases hrun : runHelmCommand c config m with ⟨⟨o, e⟩, m1⟩
      rw [hrun] at h1 h2
      simp only [Prod.mk.injEq] at h1
      obtain ⟨rfl, rfl⟩ := h1
      cases e with
      | some e =>
        exact ⟨_, _, evs, by simp [buildOutput, hk, hh, hrun, errorsWrap],
          by simpa [buildOutput, hk, hh, hrun] using h2, BuilderShape.helmFailed _ e evs hk hh hs⟩
      | none =>
        exact ⟨_, _, evs, by simp [buildOutput, hk, hh, hrun],
          by simpa [buildOutput, hk, hh, hrun] using h2, BuilderShape.helmOk _ evs hk hh hs⟩
    · exact ⟨_, _, [], by simp [buildOutput, hk, hh, errorsNew], by simp [buildOutput, hk, hh],
        BuilderShape.unsupported hk hh⟩

theorem runAfterDefer_shape (c : Collaborators σ) (config : gitopsUpdateDeploymentOptions)
    (d : String) (m : Machine σ) :
    ∃ err evs, (runAfterDefer c config d m).1 = err ∧
      (runAfterDefer c config d m).2.trace = m.trace ++ evs ∧
      AfterShape c config d m.buffers.length err evs := by
  rcases h1 : callPlainClone c config.Username config.Password config.ServerURL d m
    with ⟨e1, m1⟩
  have t1 : m1.trace = m.trace ++
      [⟨.PlainClone config.Username config.Password config.ServerURL d, e1, []⟩] := by
    simp only [callPlainClone, Machine.record, Prod.mk.injEq] at h1
    obtain ⟨rfl, rfl⟩ := h1
    rfl
  have b1 : m1.buffers = m.buffers := by
    simp only [callPlainClone, Machine.record, Prod.mk.injEq] at h1
    obtain ⟨_, rfl⟩ := h1
    rfl
  cases e1 with
  | some e =>
    exact ⟨_, _, by simp only [runAfterDefer, h1, errorsWrap],
      by simp only [runAfterDefer, h1]; exact t1, AfterShape.cloneFailed e⟩
  | none =>
    rcases h2 : callChangeBranch c config.BranchName m1 with ⟨e2, m2⟩
    have t2 : m2.trace = m1.trace ++ [⟨.ChangeBranch config.BranchName, e2, []⟩] := by
      simp only [callChangeBranch, Machine.record, Prod.mk.injEq] at h2
      obtain ⟨rfl, rfl⟩ := h2
      rfl
    have b2 : m2.buffers = m1.buffers := by
      simp only [callChangeBranch, Machine.record, Prod.mk.injEq] at h2
      obtain ⟨_, rfl⟩ := h2
      rfl
    cases e2 with
    | some e =>
      exact ⟨_, _, by simp only [runAfterDefer, h1, h2, errorsWrap],
        by simp only [runAfterDefer, h1, h2]; simp [t2, t1], AfterShape.branchFailed e⟩
    | none =>
      obtain ⟨out, e3, evs, hb1, hb2, hs⟩ :=
        buildOutput_shape c config (filepathJoin d config.FilePath) m2
      rcases h3 : buildOutput c config (filepathJoin d config.FilePath) m2 with ⟨⟨o, e3'⟩, m3⟩
      rw [h3] at hb1 hb2
      simp only [Prod.mk.injEq] at hb1 hb2
      obtain ⟨rfl, rfl⟩ := hb1
      rw [b2, b1] at hs
      cases e3' with
      | some e =>
        exact ⟨_, _, by simp only [runAfterDefer, h1, h2, h3],
          by simp only [runAfterDefer, h1, h2, h3]; simp [hb2, t2, t1],
          AfterShape.buildFailed o e evs hs⟩
      | none =>
        rcases h4 : callFileWrite c (filepathJoin d config.FilePath) o 0o755 m3 with ⟨e4, m4⟩
        have t4 : m4.trace = m3.trace ++
            [⟨.FileWrite (filepathJoin d config.FilePath) o 0o755, e4, []⟩] := by
          simp only [callFileWrite, Machine.record, Prod.mk.injEq] at h4
          obtain ⟨rfl, rfl⟩ := h4
          rfl
        cases e4 with
        | some e =>
          exact ⟨_, _, by simp only [runAfterDefer, h1, h2, h3, h4, errorsWrap],
            by simp only [runAfterDefer, h1, h2, h3, h4]; simp [t4, hb2, t2, t1],
            AfterShape.writeFailed o e evs hs⟩
        | none =>
          rcases h5 : callCommitSingleFile c config.FilePath config.CommitMessage
            config.Username m4 with ⟨⟨commit, e5⟩, m5⟩
          have t5 : m5.trace = m4.trace ++
              [⟨.CommitSingleFile config.FilePath config.CommitMessage config.Username,
                e5, []⟩] := by
            simp only [callCommitSingleFile, Machine.record, Prod.mk.injEq] at h5
            obtain ⟨h5a, rfl⟩ := h5
            rw [h5a]
          cases e5 with
          | some e =>
            exact ⟨_, _,
              by simp only [runAfterDefer, commitAndPushChanges, h1, h2, h3, h4, h5, errorsWrap],
              by simp only [runAfterDefer, commitAndPushChanges, h1, h2, h3, h4, h5, errorsWrap]
                 simp [t5, t4, hb2, t2, t1],
              AfterShape.commitFailed o e evs hs⟩
          | none =>
            rcases h6 : callPushChangesToRepository c config.Username config.Password m5
              with ⟨e6, m6⟩
            have t6 : m6.trace = m5.trace ++
                [⟨.PushChangesToRepository config.Username config.Password, e6, []⟩] := by
              simp only [callPushChangesToRepository, Machine.record, Prod.mk.injEq] at h6
              obtain ⟨rfl, rfl⟩ := h6
              rfl
            cases e6 with
            | some e =>
              exact ⟨_, _,
                by simp only [runAfterDefer, commitAndPushChanges, h1, h2, h3, h4, h5, h6,
                  errorsWrap],
                by simp only [runAfterDefer, commitAndPushChanges, h1, h2, h3, h4, h5, h6, errorsWrap]
                   simp [t6, t5, t4, hb2, t2, t1],
                AfterShape.pushFailed o e evs hs⟩
            | none =>
              exact ⟨_, _,
                by simp only [runAfterDefer, commitAndPushChanges, h1, h2, h3, h4, h5, h6],
                by simp only [runAfterDefer, commitAndPushChanges, h1, h2, h3, h4, h5, h6,
                     logInfof]
                   simp [t6, t5, t4, hb2, t2, t1],
                AfterShape.ok o evs hs⟩

theorem run_shape (c : Collaborators σ) (config : gitopsUpdateDeploymentOptions) (w : σ) :
    ∃ err tr, (runGitopsUpdateDeployment c config (Machine.init w)).1 = err ∧
      (runGitopsUpdateDeployment c config (Machine.init w)).2.trace = tr ∧
      RunShape c config w err tr := by
  rcases h0 : callTempDir c "." "temp-" (Machine.init w) with ⟨⟨d, e0⟩, m0⟩
  have hd : (c.TempDir "." "temp-" w).1 = (d, e0) := by
    simp only [callTempDir, Prod.mk.injEq] at h0
    exact h0.1
  have t0 : m0.trace = [⟨.TempDir "." "temp-", e0, []⟩] := by
    simp only [callTempDir, Machine.record, Prod.mk.injEq] at h0
    obtain ⟨h0a, rfl⟩ := h0
    simp [Machine.init, hd]
  have b0 : m0.buffers.length = 0 := by
    simp only [callTempDir, Machine.record, Prod.mk.injEq] at h0
    obtain ⟨_, rfl⟩ := h0
    rfl
  cases e0 with
  | some e =>
    exact ⟨_, _, by simp only [runGitopsUpdateDeployment, h0, errorsWrap],
      by simp only [runGitopsUpdateDeployment, h0]; exact t0,
      RunShape.tempDirFailed e (by rw [hd])⟩
  | none =>
    obtain ⟨err, evs, ha1, ha2, hs⟩ := runAfterDefer_shape c config d m0
    rw [b0] at hs
    rcases hr : callRemoveAll c d (runAfterDefer c config d m0).2 with ⟨r, mr⟩
    have tr : mr.trace = (runAfterDefer c config d m0).2.trace ++ [⟨.RemoveAll d, r, []⟩] := by
      simp only [callRemoveAll, Machine.record, Prod.mk.injEq] at hr
      obtain ⟨rfl, rfl⟩ := hr
      rfl
    refine ⟨err, _, ?_, ?_, RunShape.cleaned d err r evs hd hs⟩
    · simp only [runGitopsUpdateDeployment, h0, ha1]
    · simp only [runGitopsUpdateDeployment, h0, deferredCleanup, hr]
      cases r <;> simp [logError, tr, ha2, t0]

theorem splitSlash_single (r : List Char) (hr : '/' ∉ r) : splitSlash r = [r] := by
  induction r with
  | nil => rfl
  | cons ch r ih =>
    simp only [List.mem_cons, not_or] at hr
    have hne : ch ≠ '/' := fun h => hr.1 h.symm
    simp [splitSlash, hne, ih hr.2]

theorem splitSlash_append (l r : List Char) (hl : '/' ∉ l) :
    splitSlash (l ++ '/' :: r) = l :: splitSlash r := by
  induction l with
  | nil => simp [splitSlash]
  | cons ch l ih =>
    simp only [List.mem_cons, not_or] at hl
    have hne : ch ≠ '/' := fun h => hl.1 h.symm
    simp [splitSlash, hne, ih hl.2]

theorem filepathJoin_singleElement (d f : String) (hd : singleElement d)
    (hf : singleElement f) : filepathJoin d f = d ++ "/" ++ f := by
  obtain ⟨d1, d2, d3, d4⟩ := hd
  obtain ⟨f1, f2, f3, f4⟩ := hf
  have hdne : d ≠ "" := fun h => d2 (by rw [h])
  have hdata : (d ++ "/" ++ f).data = d.data ++ '/' :: f.data := by
    simp [String.data_append]
  have hne : d ++ "/" ++ f ≠ "" := by
    intro h
    have := congrArg String.data h
    rw [hdata] at this
    simp at this
  have hd0 : d.data.head? ≠ some '/' := by
    cases hdd : d.data with
    | nil => exact absurd hdd d2
    | cons ch rest =>
      rw [hdd] at d1
      simp only [List.mem_cons, not_or] at d1
      simpa using fun h => d1.1 h.symm
  have hhead : (d ++ "/" ++ f).data.head? ≠ some '/' := by
    rw [hdata]
    cases hdd : d.data with
    | nil => exact absurd hdd d2
    | cons ch rest => simpa [hdd] using hd0
  have hmk : ({ data := d.data ++ '/' :: f.data } : String) = d ++ "/" ++ f :=
    String.ext hdata.symm
  simp only [filepathJoin, hdne, ne_eq, not_false_eq_true, if_true, filepathClean, hne, if_false,
    hhead, decide_False, hdata, splitSlash_append _ _ d1, splitSlash_single _ f1]
  simp [cleanElems, d2, d3, d4, f2, f3, f4, List.intercalate]
  simp [hd0, hmk, hne]

theorem filepathJoin_examples :
    filepathJoin "temp-1" "deploy.yaml" = "temp-1/deploy.yaml" ∧
    filepathJoin "/tmp/temp-1" "deploy.yaml" = "/tmp/temp-1/deploy.yaml" ∧
    filepathJoin "./temp-1" "deploy.yaml" = "temp-1/deploy.yaml" ∧
    filepathJoin "" "deploy.yaml" = "deploy.yaml" ∧
    filepathJoin "./a//b/../c/" "x/./y" = "a/c/x/y" ∧
    filepathJoin "/.." "../x" = "/x" ∧
    filepathJoin ".." "../x" = "../../x" := by decide

/-- C1, as stated, fails: with a deploy tool that is neither `kubectl` nor `helm`
and a `TempDir` that fails, the run returns the wrapped `TempDir` error, which is
not the unsupported-tool error. -/
theorem unsupported_tool_counterexample :
    dockerConfig.DeployTool ≠ "kubectl" ∧ dockerConfig.DeployTool ≠ "helm" ∧
    (runGitopsUpdateDeployment tempDirFails dockerConfig (Machine.init ())).1
      = some (.wrap (.new "no space left on device") "failed to create temporary directory") ∧
    (runGitopsUpdateDeployment tempDirFails dockerConfig (Machine.init ())).1
      ≠ errorsNew ("deploy tool " ++ dockerConfig.DeployTool ++ " is not supported") := by
  decide

/-- C1, amended: for a deploy tool that is neither `kubectl` nor `helm`, whatever
the collaborators do, the run returns an error and never calls `RunExecutable`;
when `TempDir`, `PlainClone` and `ChangeBranch` returned nil, the error is the
unsupported-tool error. -/
theorem unsupported_tool_fails (c : Collaborators σ) (config : gitopsUpdateDeploymentOptions)
    (w : σ) (hk : config.DeployTool ≠ "kubectl") (hh : config.DeployTool ≠ "helm") :
    (runGitopsUpdateDeployment c config (Machine.init w)).1 ≠ none ∧
    callsTo .RunExecutable (runGitopsUpdateDeployment c config (Machine.init w)).2.trace = [] ∧
    ((∀ ev ∈ (runGitopsUpdateDeployment c config (Machine.init w)).2.trace,
        ev.call.method ∈ [Method.TempDir, Method.PlainClone, Method.ChangeBranch] →
          ev.err = none) →
      (runGitopsUpdateDeployment c config (Machine.init w)).1
        = errorsNew ("deploy tool " ++ config.DeployTool ++ " is not supported")) := by
  simp only [runGitopsUpdateDeployment, runAfterDefer, buildOutput, deferredCleanup, hk, hh,
    if_false]
  repeat' split
  all_goals simp only [callTempDir, callPlainClone, callChangeBranch, callRemoveAll,
    Prod.mk.injEq] at *
  all_goals casesm* _ ∧ _
  all_goals subst_vars
  all_goals simp_all [Machine.record, Machine.init, errorsWrap, errorsNew, logError,
    Call.method, callsTo]

theorem unsupported_tool_fails_witness :
    dockerConfig.DeployTool ≠ "kubectl" ∧ dockerConfig.DeployTool ≠ "helm" ∧
    (runGitopsUpdateDeployment okCollaborators dockerConfig (Machine.init ())).1 ≠ none ∧
    callsTo .RunExecutable
      (runGitopsUpdateDeployment okCollaborators dockerConfig (Machine.init ())).2.trace = [] ∧
    (∀ ev ∈ (runGitopsUpdateDeployment okCollaborators dockerConfig (Machine.init ())).2.trace,
      ev.call.method ∈ [Method.TempDir, Method.PlainClone, Method.ChangeBranch] →
        ev.err = none) ∧
    (runGitopsUpdateDeployment okCollaborators dockerConfig (Machine.init ())).1
      = errorsNew "deploy tool docker is not supported" :=
  ⟨by decide, by decide,
    (unsupported_tool_fails okCollaborators dockerConfig () (by decide) (by decide)).1,
    (unsupported_tool_fails okCollaborators dockerConfig () (by decide) (by decide)).2.1,
    by decide,
    (unsupported_tool_fails okCollaborators dockerConfig () (by decide) (by decide)).2.2
      (by decide)⟩

/-- C2, as stated, fails: with a registry URL configured and a registry function
that succeeds with the empty host, `buildRegistryPlusImage` returns the image
reference alone, not the host followed by a slash and the image reference. -/
theorem buildRegistryPlusImage_counterexample :
    registryConfig.ContainerRegistryURL ≠ "" ∧
    emptyHost.ContainerRegistryFromURL registryConfig.ContainerRegistryURL = ("", none) ∧
    (buildRegistryPlusImage emptyHost registryConfig (Machine.init ())).1 = ("img:v1", none) ∧
    (buildRegistryPlusImage emptyHost registryConfig (Machine.init ())).1
      ≠ ("" ++ "/" ++ registryConfig.ContainerImageNameTag, none) := by
  decide

/-- C2, amended: with an empty registry URL `buildRegistryPlusImage` returns the
image reference verbatim, with no error and without any call; with a registry URL
for which the registry function succeeds with host `h` it returns `h`, a slash and
the image reference when `h` is not empty, and the image reference alone when `h`
is empty. -/
theorem buildRegistryPlusImage_spec (c : Collaborators σ)
    (config : gitopsUpdateDeploymentOptions) (m : Machine σ) :
    (config.ContainerRegistryURL = "" →
      buildRegistryPlusImage c config m = ((config.ContainerImageNameTag, none), m)) ∧
    (∀ h : String, config.ContainerRegistryURL ≠ "" →
      c.ContainerRegistryFromURL config.ContainerRegistryURL = (h, none) →
      (buildRegistryPlusImage c config m).1
        = ((if h = "" then config.ContainerImageNameTag
            else h ++ "/" ++ config.ContainerImageNameTag), none)) := by
  refine ⟨fun h0 => by simp [buildRegistryPlusImage, h0], fun h hne hreg => ?_⟩
  by_cases hh : h = "" <;>
    simp [buildRegistryPlusImage, hne, callContainerRegistryFromURL, hreg, hh]

theorem buildRegistryPlusImage_spec_witness :
    (kubectlConfig.ContainerRegistryURL = "" ∧
      buildRegistryPlusImage okCollaborators kubectlConfig (Machine.init ())
        = ((kubectlConfig.ContainerImageNameTag, none), Machine.init ())) ∧
    (registryConfig.ContainerRegistryURL ≠ "" ∧
      okCollaborators.ContainerRegistryFromURL registryConfig.ContainerRegistryURL
        = ("reg.example.com", none) ∧
      (buildRegistryPlusImage okCollaborators registryConfig (Machine.init ())).1
        = ("reg.example.com/img:v1", none)) :=
  ⟨⟨by decide,
    (buildRegistryPlusImage_spec okCollaborators kubectlConfig (Machine.init ())).1 (by decide)⟩,
   ⟨by decide, by decide,
    (buildRegistryPlusImage_spec okCollaborators registryConfig (Machine.init ())).2
      "reg.example.com" (by decide) (by decide)⟩⟩

/-- C3: when both helm substitution values are computed without error and the
image functions split the image reference so that name, a colon and tag give the
reference back, then name-without-tag, a colon and the tag are exactly what
`buildRegistryPlusImage` returns for the same request, with no error. -/
theorem helm_values_reconstruct (c : Collaborators σ) (config : gitopsUpdateDeploymentOptions)
    (m₁ m₂ m₃ : Machine σ) (n t : String)
    (hn : (buildRegistryPlusImageWithoutTag c config m₁).1 = (n, none))
    (ht : (extractTagFromImageNameTag c config m₂).1 = (t, none))
    (hsplit : (c.ContainerImageNameFromImage config.ContainerImageNameTag).1 ++ ":"
      ++ (c.ContainerImageTagFromImage config.ContainerImageNameTag).1
        = config.ContainerImageNameTag) :
    (buildRegistryPlusImage c config m₃).1 = (n ++ ":" ++ t, none) := by
  rcases hN : c.ContainerImageNameFromImage config.ContainerImageNameTag with ⟨nm, en⟩
  rcases hT : c.ContainerImageTagFromImage config.ContainerImageNameTag with ⟨tg, et⟩
  rcases hR : c.ContainerRegistryFromURL config.ContainerRegistryURL with ⟨u, eu⟩
  rw [hN, hT] at hsplit
  simp only at hsplit
  cases en <;> cases et <;> cases eu <;> by_cases h0 : config.ContainerRegistryURL = "" <;>
    by_cases hu : u = "" <;>
    simp_all [buildRegistryPlusImageWithoutTag, extractTagFromImageNameTag,
      buildRegistryPlusImage, callContainerRegistryFromURL, callContainerImageNameFromImage,
      callContainerImageTagFromImage, errorsWrap]
  all_goals
    subst_vars
    simp [String.append_assoc, hsplit]

theorem helm_values_reconstruct_witness :
    (buildRegistryPlusImageWithoutTag okCollaborators helmConfig (Machine.init ())).1
      = ("reg.example.com/img", none) ∧
    (extractTagFromImageNameTag okCollaborators helmConfig (Machine.init ())).1 = ("v2", none) ∧
    (okCollaborators.ContainerImageNameFromImage helmConfig.ContainerImageNameTag).1 ++ ":"
      ++ (okCollaborators.ContainerImageTagFromImage helmConfig.ContainerImageNameTag).1
        = helmConfig.ContainerImageNameTag ∧
    (buildRegistryPlusImage okCollaborators helmConfig (Machine.init ())).1
      = ("reg.example.com/img" ++ ":" ++ "v2", none) :=
  ⟨by decide, by decide, by decide,
    helm_values_reconstruct okCollaborators helmConfig (Machine.init ()) (Machine.init ())
      (Machine.init ()) "reg.example.com/img" "v2" (by decide) (by decide) (by decide)⟩

/-- C4: when `TempDir` succeeds with directory `d`, the run calls `RemoveAll`
exactly once, with `d`, and that call is the last call of the run, whatever step
fails or succeeds in between; when `TempDir` fails, `RemoveAll` is not called. -/
theorem cleanup_once_and_last (c : Collaborators σ) (config : gitopsUpdateDeploymentOptions)
    (w : σ) :
    (∀ d, (c.TempDir "." "temp-" w).1 = (d, none) →
      callsTo .RemoveAll (runGitopsUpdateDeployment c config (Machine.init w)).2.trace
        = [.RemoveAll d] ∧
      ((runGitopsUpdateDeployment c config (Machine.init w)).2.trace.map Event.call).getLast?
        = some (.RemoveAll d)) ∧
    ((c.TempDir "." "temp-" w).1.2 ≠ none →
      callsTo .RemoveAll (runGitopsUpdateDeployment c config (Machine.init w)).2.trace = []) := by
  obtain ⟨err, tr, h1, h2, hs⟩ := run_shape c config w
  rw [h2]
  cases hs with
  | tempDirFailed e he =>
    refine ⟨fun d hd => ?_, fun _ => by simp [callsTo, Call.method]⟩
    rw [hd] at he
    simp at he
  | cleaned d res r evs hd hA =>
    simp only [hd]
    cases hA <;> (try (rename_i hB; cases hB)) <;> (try (rename_i hH; cases hH)) <;>
      subst_vars <;> simp [callsTo, Call.method, registryEvents] <;> split <;> simp

theorem cleanup_once_and_last_witness :
    ((okCollaborators.TempDir "." "temp-" ()).1 = ("temp-1", none) ∧
      callsTo .RemoveAll
        (runGitopsUpdateDeployment okCollaborators kubectlConfig (Machine.init ())).2.trace
          = [.RemoveAll "temp-1"] ∧
      ((runGitopsUpdateDeployment okCollaborators kubectlConfig
        (Machine.init ())).2.trace.map Event.call).getLast? = some (.RemoveAll "temp-1")) ∧
    ((tempDirFails.TempDir "." "temp-" ()).1.2 ≠ none ∧
      callsTo .RemoveAll
        (runGitopsUpdateDeployment tempDirFails kubectlConfig (Machine.init ())).2.trace = []) :=
  ⟨⟨by decide,
    (cleanup_once_and_last okCollaborators kubectlConfig ()).1 "temp-1" (by decide)⟩,
   ⟨by decide, (cleanup_once_and_last tempDirFails kubectlConfig ()).2 (by decide)⟩⟩

set_option maxHeartbeats 1000000

/-- C5: the first failure aborts the run. In every run, a call that returned an
error is followed by no call other than `RemoveAll`; no method is called twice;
when a call other than `RemoveAll` returned an error the run returns an error;
and when `ChangeBranch` fails with `e` the run returns `e` wrapped with
"failed to change branch" after exactly the calls `TempDir`, `PlainClone`,
`ChangeBranch`, `RemoveAll`. -/
theorem first_failure_aborts (c : Collaborators σ) (config : gitopsUpdateDeploymentOptions)
    (w : σ) :
    List.Pairwise (fun ev ev' : Event => ev.err ≠ none → ev'.call.method = .RemoveAll)
      (runGitopsUpdateDeployment c config (Machine.init w)).2.trace ∧
    ((runGitopsUpdateDeployment c config (Machine.init w)).2.trace.map
      (fun ev => ev.call.method)).Nodup ∧
    ((∃ ev ∈ (runGitopsUpdateDeployment c config (Machine.init w)).2.trace,
        ev.call.method ≠ .RemoveAll ∧ ev.err ≠ none) →
      (runGitopsUpdateDeployment c config (Machine.init w)).1 ≠ none) ∧
    (∀ e : GoError,
      (⟨.ChangeBranch config.BranchName, some e, []⟩ : Event) ∈
        (runGitopsUpdateDeployment c config (Machine.init w)).2.trace →
      (runGitopsUpdateDeployment c config (Machine.init w)).1
        = some (.wrap e "failed to change branch") ∧
      (runGitopsUpdateDeployment c config (Machine.init w)).2.trace.map Event.call
        = [.TempDir "." "temp-",
           .PlainClone config.Username config.Password config.ServerURL
             (c.TempDir "." "temp-" w).1.1,
           .ChangeBranch config.BranchName,
           .RemoveAll (c.TempDir "." "temp-" w).1.1]) := by
  obtain ⟨err, tr, h1, h2, hs⟩ := run_shape c config w
  rw [h1, h2]
  cases hs with
  | tempDirFailed e he => simp [Call.method]
  | cleaned d res r evs hd hA =>
    simp only [hd]
    by_cases h0 : config.ContainerRegistryURL = "" <;>
      cases hA <;> (try (rename_i hB; cases hB)) <;> (try (rename_i hH; cases hH)) <;>
      subst_vars <;> simp only [registryEvents, h0, if_true, if_false, List.cons_append,
        List.nil_append, List.map_cons, List.map_nil, Call.method] <;>
      refine ⟨?_, ?_, ?_, ?_⟩ <;> simp

theorem first_failure_aborts_witness :
    ((∃ ev ∈ (runGitopsUpdateDeployment branchFails kubectlConfig (Machine.init ())).2.trace,
        ev.call.method ≠ .RemoveAll ∧ ev.err ≠ none) ∧
      (runGitopsUpdateDeployment branchFails kubectlConfig (Machine.init ())).1 ≠ none) ∧
    ((⟨.ChangeBranch "main", some (.new "no such branch"), []⟩ : Event) ∈
        (runGitopsUpdateDeployment branchFails kubectlConfig (Machine.init ())).2.trace ∧
      (runGitopsUpdateDeployment branchFails kubectlConfig (Machine.init ())).1
        = some (.wrap (.new "no such branch") "failed to change branch") ∧
      (runGitopsUpdateDeployment branchFails kubectlConfig (Machine.init ())).2.trace.map
        Event.call
        = [.TempDir "." "temp-",
           .PlainClone "user" "secret" "https://git.example.com/repo.git" "temp-1",
           .ChangeBranch "main",
           .RemoveAll "temp-1"]) :=
  ⟨⟨by decide, (first_failure_aborts branchFails kubectlConfig ()).2.2.1 (by decide)⟩,
   ⟨by decide,
    (first_failure_aborts branchFails kubectlConfig ()).2.2.2 (.new "no such branch")
      (by decide)⟩⟩

theorem runAfterDefer_removeAll_irrelevant (c : Collaborators σ)
    (config : gitopsUpdateDeploymentOptions) (d : String) (m : Machine σ)
    (f : String → σ → error × σ) :
    runAfterDefer { c with RemoveAll := f } config d m = runAfterDefer c config d m := rfl

theorem run_fst_removeAll_irrelevant (c : Collaborators σ)
    (config : gitopsUpdateDeploymentOptions) (m : Machine σ) (f : String → σ → error × σ) :
    (runGitopsUpdateDeployment { c with RemoveAll := f } config m).1
      = (runGitopsUpdateDeployment c config m).1 := by
  have hT : callTempDir { c with RemoveAll := f } "." "temp-" m = callTempDir c "." "temp-" m :=
    rfl
  rcases h0 : callTempDir c "." "temp-" m with ⟨⟨d, e0⟩, m0⟩
  cases e0 <;>
    simp only [runGitopsUpdateDeployment, hT, h0, runAfterDefer_removeAll_irrelevant]

/-- C6: a cleanup failure never changes the outcome. The error the run returns
does not depend on what `RemoveAll` does; a run with a supported deploy tool in
which every call other than `RemoveAll` returned nil returns nil; and when a call
other than `RemoveAll` returned the error `e`, the run returns an error that
wraps `e`. -/
theorem cleanup_failure_is_swallowed (c : Collaborators σ)
    (config : gitopsUpdateDeploymentOptions) (w : σ) (f g : String → σ → error × σ) :
    (runGitopsUpdateDeployment { c with RemoveAll := f } config (Machine.init w)).1
      = (runGitopsUpdateDeployment { c with RemoveAll := g } config (Machine.init w)).1 ∧
    ((config.DeployTool = "kubectl" ∨ config.DeployTool = "helm") →
      (∀ ev ∈ (runGitopsUpdateDeployment c config (Machine.init w)).2.trace,
        ev.call.method ≠ .RemoveAll → ev.err = none) →
      (runGitopsUpdateDeployment c config (Machine.init w)).1 = none) ∧
    (∀ ev ∈ (runGitopsUpdateDeployment c config (Machine.init w)).2.trace,
      ev.call.method ≠ .RemoveAll → ∀ e, ev.err = some e →
      ∃ r, (runGitopsUpdateDeployment c config (Machine.init w)).1 = some r ∧ e ∈ r.causes) := by
  refine ⟨by rw [run_fst_removeAll_irrelevant c config _ f,
    run_fst_removeAll_irrelevant c config _ g], ?_⟩
  obtain ⟨err, tr, h1, h2, hs⟩ := run_shape c config w
  rw [h1, h2]
  cases hs with
  | tempDirFailed e he => simp [Call.method, GoError.causes]
  | cleaned d res r evs hd hA =>
    by_cases h0 : config.ContainerRegistryURL = "" <;>
      cases hA <;> (try (rename_i hB; cases hB)) <;> (try (rename_i hH; cases hH)) <;>
      subst_vars <;> simp only [registryEvents, h0, if_true, if_false, List.cons_append,
        List.nil_append, List.map_cons, List.map_nil, Call.method] <;>
      refine ⟨?_, ?_⟩ <;> simp_all [GoError.causes]

theorem cleanup_failure_is_swallowed_witness :
    ((kubectlConfig.DeployTool = "kubectl" ∨ kubectlConfig.DeployTool = "helm") ∧
      (∀ ev ∈ (runGitopsUpdateDeployment removeAllFails kubectlConfig (Machine.init ())).2.trace,
        ev.call.method ≠ .RemoveAll → ev.err = none) ∧
      (⟨.RemoveAll "temp-1", some (.new "directory busy"), []⟩ : Event) ∈
        (runGitopsUpdateDeployment removeAllFails kubectlConfig (Machine.init ())).2.trace ∧
      (runGitopsUpdateDeployment removeAllFails kubectlConfig (Machine.init ())).1 = none) ∧
    ((⟨.ChangeBranch "main", some (.new "no such branch"), []⟩ : Event) ∈
        (runGitopsUpdateDeployment branchFails kubectlConfig (Machine.init ())).2.trace ∧
      ∃ r, (runGitopsUpdateDeployment branchFails kubectlConfig (Machine.init ())).1 = some r ∧
        GoError.new "no such branch" ∈ r.causes) :=
  ⟨⟨by decide, by decide, by decide,
    (cleanup_failure_is_swallowed removeAllFails kubectlConfig ()
      removeAllFails.RemoveAll okCollaborators.RemoveAll).2.1 (by decide) (by decide)⟩,
   ⟨by decide,
    (cleanup_failure_is_swallowed branchFails kubectlConfig ()
      branchFails.RemoveAll removeAllFails.RemoveAll).2.2
      ⟨.ChangeBranch "main", some (.new "no such branch"), []⟩ (by decide) (by decide)
      (.new "no such branch") rfl⟩⟩

/-- C9: one file is committed per run, the configured manifest. In every run
`CommitSingleFile` is called at most once, and only with `FilePath`,
`CommitMessage` and `Username`; a run that returns nil called it exactly once and
then called `PushChangesToRepository` exactly once, with `Username` and
`Password`; a push only happens when the commit returned nil, no commit follows a
push, and no push happens when the commit failed. -/
theorem single_commit_then_push (c : Collaborators σ) (config : gitopsUpdateDeploymentOptions)
    (w : σ) :
    (callsTo .CommitSingleFile (runGitopsUpdateDeployment c config (Machine.init w)).2.trace = [] ∨
      callsTo .CommitSingleFile (runGitopsUpdateDeployment c config (Machine.init w)).2.trace
        = [.CommitSingleFile config.FilePath config.CommitMessage config.Username]) ∧
    ((runGitopsUpdateDeployment c config (Machine.init w)).1 = none →
      callsTo .CommitSingleFile (runGitopsUpdateDeployment c config (Machine.init w)).2.trace
        = [.CommitSingleFile config.FilePath config.CommitMessage config.Username] ∧
      callsTo .PushChangesToRepository
        (runGitopsUpdateDeployment c config (Machine.init w)).2.trace
        = [.PushChangesToRepository config.Username config.Password]) ∧
    (callsTo .PushChangesToRepository
        (runGitopsUpdateDeployment c config (Machine.init w)).2.trace ≠ [] →
      callsTo .PushChangesToRepository
        (runGitopsUpdateDeployment c config (Machine.init w)).2.trace
        = [.PushChangesToRepository config.Username config.Password] ∧
      (⟨.CommitSingleFile config.FilePath config.CommitMessage config.Username, none, []⟩ :
        Event) ∈ (runGitopsUpdateDeployment c config (Machine.init w)).2.trace) ∧
    List.Pairwise (fun ev ev' : Event => ev.call.method = .PushChangesToRepository →
        ev'.call.method ≠ .CommitSingleFile)
      (runGitopsUpdateDeployment c config (Machine.init w)).2.trace ∧
    (∀ ev ∈ (runGitopsUpdateDeployment c config (Machine.init w)).2.trace,
      ev.call.method = .CommitSingleFile → ev.err ≠ none →
      callsTo .PushChangesToRepository
        (runGitopsUpdateDeployment c config (Machine.init w)).2.trace = []) := by
  obtain ⟨err, tr, h1, h2, hs⟩ := run_shape c config w
  rw [h1, h2]
  cases hs with
  | tempDirFailed e he => simp [Call.method, callsTo]
  | cleaned d res r evs hd hA =>
    by_cases h0 : config.ContainerRegistryURL = "" <;>
      cases hA <;> (try (rename_i hB; cases hB)) <;> (try (rename_i hH; cases hH)) <;>
      subst_vars <;> simp only [registryEvents, h0, if_true, if_false, List.cons_append,
        List.nil_append, List.map_cons, List.map_nil, Call.method, callsTo] <;>
      refine ⟨?_, ?_, ?_, ?_, ?_⟩ <;> simp

theorem single_commit_then_push_witness :
    ((runGitopsUpdateDeployment okCollaborators helmConfig (Machine.init ())).1 = none ∧
      callsTo .CommitSingleFile
        (runGitopsUpdateDeployment okCollaborators helmConfig (Machine.init ())).2.trace
        = [.CommitSingleFile "deploy.yaml" "update" "user"] ∧
      callsTo .PushChangesToRepository
        (runGitopsUpdateDeployment okCollaborators helmConfig (Machine.init ())).2.trace
        = [.PushChangesToRepository "user" "secret"]) ∧
    (callsTo .PushChangesToRepository
        (runGitopsUpdateDeployment okCollaborators helmConfig (Machine.init ())).2.trace ≠ [] ∧
      callsTo .PushChangesToRepository
        (runGitopsUpdateDeployment okCollaborators helmConfig (Machine.init ())).2.trace
        = [.PushChangesToRepository "user" "secret"] ∧
      (⟨.CommitSingleFile "deploy.yaml" "update" "user", none, []⟩ : Event) ∈
        (runGitopsUpdateDeployment okCollaborators helmConfig (Machine.init ())).2.trace) ∧
    ((⟨.CommitSingleFile "deploy.yaml" "update" "user", some (.new "nothing to commit"), []⟩ :
        Event) ∈ (runGitopsUpdateDeployment commitFails helmConfig (Machine.init ())).2.trace ∧
      callsTo .PushChangesToRepository
        (runGitopsUpdateDeployment commitFails helmConfig (Machine.init ())).2.trace = []) :=
  ⟨⟨by decide, (single_commit_then_push okCollaborators helmConfig ()).2.1 (by decide)⟩,
   ⟨by decide, (single_commit_then_push okCollaborators helmConfig ()).2.2.1 (by decide)⟩,
   ⟨by decide,
    (single_commit_then_push commitFails helmConfig ()).2.2.2.2
      ⟨.CommitSingleFile "deploy.yaml" "update" "user", some (.new "nothing to commit"), []⟩
      (by decide) (by decide) (by decide)⟩⟩

/-- C10: the manifest is overwritten with exactly the output of the external
tool. Whenever `RunExecutable` is called, the runner's standard output was sent
to the first buffer of the run just before, by the one `Stdout` call of the run;
whenever `RunExecutable` returned nil, `FileWrite` is called exactly once, with
the joined path of directory and `FilePath`, with exactly the bytes that call
wrote to standard output, and with permission `0755`; and `FileWrite` is called
only when `RunExecutable` returned nil, never when a step of the builder failed. -/
theorem manifest_is_tool_output (c : Collaborators σ) (config : gitopsUpdateDeploymentOptions)
    (w : σ) :
    (∀ ev ∈ (runGitopsUpdateDeployment c config (Machine.init w)).2.trace,
      ev.call.method = .RunExecutable →
      runnerCalls (runGitopsUpdateDeployment c config (Machine.init w)).2.trace
        = [.Stdout 0, ev.call]) ∧
    (∀ ev ∈ (runGitopsUpdateDeployment c config (Machine.init w)).2.trace,
      ev.call.method = .RunExecutable → ev.err = none →
      callsTo .FileWrite (runGitopsUpdateDeployment c config (Machine.init w)).2.trace
        = [.FileWrite (filepathJoin (c.TempDir "." "temp-" w).1.1 config.FilePath)
            ev.stdout 0o755]) ∧
    (callsTo .FileWrite (runGitopsUpdateDeployment c config (Machine.init w)).2.trace ≠ [] →
      ∃ ev ∈ (runGitopsUpdateDeployment c config (Machine.init w)).2.trace,
        ev.call.method = .RunExecutable ∧ ev.err = none) ∧
    ((∃ ev ∈ (runGitopsUpdateDeployment c config (Machine.init w)).2.trace,
        (ev.call.method = .RunExecutable ∨ ev.call.method = .ContainerRegistryFromURL ∨
          ev.call.method = .ContainerImageNameFromImage ∨
          ev.call.method = .ContainerImageTagFromImage) ∧ ev.err ≠ none) →
      callsTo .FileWrite (runGitopsUpdateDeployment c config (Machine.init w)).2.trace = []) := by
  obtain ⟨err, tr, h1, h2, hs⟩ := run_shape c config w
  rw [h2]
  cases hs with
  | tempDirFailed e he => simp [Call.method, callsTo, runnerCalls]
  | cleaned d res r evs hd hA =>
    simp only [hd]
    by_cases h0 : config.ContainerRegistryURL = "" <;>
      cases hA <;> (try (rename_i hB; cases hB)) <;> (try (rename_i hH; cases hH)) <;>
      subst_vars <;> simp only [registryEvents, h0, if_true, if_false, List.cons_append,
        List.nil_append, List.map_cons, List.map_nil, Call.method, callsTo, runnerCalls] <;>
      refine ⟨?_, ?_, ?_, ?_⟩ <;> simp

theorem manifest_is_tool_output_witness :
    ((⟨.RunExecutable "helm" ["template", "app", "./chart", "--values=vals.yaml",
          "--set=image.repository=reg.example.com/img", "--set=image.tag=v2"], none, [1, 2, 3]⟩ :
        Event) ∈ (runGitopsUpdateDeployment okCollaborators helmConfig (Machine.init ())).2.trace ∧
      runnerCalls (runGitopsUpdateDeployment okCollaborators helmConfig (Machine.init ())).2.trace
        = [.Stdout 0, .RunExecutable "helm" ["template", "app", "./chart", "--values=vals.yaml",
          "--set=image.repository=reg.example.com/img", "--set=image.tag=v2"]] ∧
      callsTo .FileWrite
        (runGitopsUpdateDeployment okCollaborators helmConfig (Machine.init ())).2.trace
        = [.FileWrite "temp-1/deploy.yaml" [1, 2, 3] 0o755]) ∧
    (callsTo .FileWrite
        (runGitopsUpdateDeployment okCollaborators kubectlConfig (Machine.init ())).2.trace ≠ [] ∧
      ∃ ev ∈ (runGitopsUpdateDeployment okCollaborators kubectlConfig (Machine.init ())).2.trace,
        ev.call.method = .RunExecutable ∧ ev.err = none) ∧
    ((∃ ev ∈ (runGitopsUpdateDeployment runFails kubectlConfig (Machine.init ())).2.trace,
        (ev.call.method = .RunExecutable ∨ ev.call.method = .ContainerRegistryFromURL ∨
          ev.call.method = .ContainerImageNameFromImage ∨
          ev.call.method = .ContainerImageTagFromImage) ∧ ev.err ≠ none) ∧
      callsTo .FileWrite
        (runGitopsUpdateDeployment runFails kubectlConfig (Machine.init ())).2.trace = []) :=
  ⟨⟨by decide,
    (manifest_is_tool_output okCollaborators helmConfig ()).1
      ⟨.RunExecutable "helm" ["template", "app", "./chart", "--values=vals.yaml",
          "--set=image.repository=reg.example.com/img", "--set=image.tag=v2"], none, [1, 2, 3]⟩
      (by decide) (by decide),
    (manifest_is_tool_output okCollaborators helmConfig ()).2.1
      ⟨.RunExecutable "helm" ["template", "app", "./chart", "--values=vals.yaml",
          "--set=image.repository=reg.example.com/img", "--set=image.tag=v2"], none, [1, 2, 3]⟩
      (by decide) (by decide) (by decide)⟩,
   ⟨by decide, (manifest_is_tool_output okCollaborators kubectlConfig ()).2.2.1 (by decide)⟩,
   ⟨by decide, (manifest_is_tool_output runFails kubectlConfig ()).2.2.2 (by decide)⟩⟩

/-- C7, as stated, fails in its scenario: with a `TempDir` that returns the
directory `./temp-1`, every step succeeding, container `app`, image `img:v1`, no
registry URL and file `deploy.yaml`, the last argument of the `kubectl` call is
`--filename=temp-1/deploy.yaml`, because the path is joined and cleaned; it is not
`--filename=` followed by the directory, a slash and `deploy.yaml`. -/
theorem kubectl_invocation_counterexample :
    kubectlConfig.DeployTool = "kubectl" ∧
    (dotWorkspace.TempDir "." "temp-" ()).1 = ("./temp-1", none) ∧
    (∀ ev ∈ (runGitopsUpdateDeployment dotWorkspace kubectlConfig (Machine.init ())).2.trace,
      ev.call.method ≠ .RemoveAll → ev.err = none) ∧
    (buildRegistryPlusImage dotWorkspace kubectlConfig (Machine.init ())).1
      = ("img:v1", none) ∧
    callsTo .RunExecutable
      (runGitopsUpdateDeployment dotWorkspace kubectlConfig (Machine.init ())).2.trace
      = [.RunExecutable "kubectl" ["patch", "--local", "--output=yaml",
          "--patch=\x7b\"spec\":\x7b\"template\":\x7b\"spec\":\x7b\"containers\":[\x7b\"name\":\"app\",\"image\":\"img:v1\"\x7d]\x7d\x7d\x7d\x7d",
          "--filename=temp-1/deploy.yaml"]] ∧
    "--filename=temp-1/deploy.yaml" ≠ "--filename=" ++ "./temp-1" ++ "/deploy.yaml" := by
  decide

/-- C7, amended: on the kubectl path, when `TempDir`, `PlainClone`, `ChangeBranch`
and the registry lookup returned nil and `buildRegistryPlusImage` gives `r`, the
run calls `RunExecutable` exactly once, with `kubectl` and the five arguments
`patch`, `--local`, `--output=yaml`, `--patch=` followed by the JSON patch with
`ContainerName` and `r` inserted verbatim, and `--filename=` followed by the
joined path of the directory and `FilePath`. For container `app`, image `img:v1`,
no registry URL and file `deploy.yaml` the patch is the one of scenario A and the
last argument is `--filename=` followed by the joined path of the directory and
`deploy.yaml`; that path is the directory, a slash and `deploy.yaml` when the
directory is a single path element. -/
theorem kubectl_invocation (c : Collaborators σ) (config : gitopsUpdateDeploymentOptions)
    (w : σ) (r : String) (hk : config.DeployTool = "kubectl")
    (hok : ∀ ev ∈ (runGitopsUpdateDeployment c config (Machine.init w)).2.trace,
      (ev.call.method = .TempDir ∨ ev.call.method = .PlainClone ∨
        ev.call.method = .ChangeBranch ∨ ev.call.method = .ContainerRegistryFromURL) →
      ev.err = none)
    (hr : (buildRegistryPlusImage c config (Machine.init w)).1 = (r, none)) :
    callsTo .RunExecutable (runGitopsUpdateDeployment c config (Machine.init w)).2.trace
      = [.RunExecutable "kubectl" ["patch", "--local", "--output=yaml",
          "--patch=" ++
            ("\x7b\"spec\":\x7b\"template\":\x7b\"spec\":\x7b\"containers\":[\x7b\"name\":\""
              ++ config.ContainerName ++ "\",\"image\":\"" ++ r ++ "\"\x7d]\x7d\x7d\x7d\x7d"),
          "--filename=" ++ filepathJoin (c.TempDir "." "temp-" w).1.1 config.FilePath]] ∧
    (config.ContainerName = "app" → config.ContainerImageNameTag = "img:v1" →
      config.ContainerRegistryURL = "" → config.FilePath = "deploy.yaml" →
      callsTo .RunExecutable (runGitopsUpdateDeployment c config (Machine.init w)).2.trace
        = [.RunExecutable "kubectl" ["patch", "--local", "--output=yaml",
            "--patch=\x7b\"spec\":\x7b\"template\":\x7b\"spec\":\x7b\"containers\":[\x7b\"name\":\"app\",\"image\":\"img:v1\"\x7d]\x7d\x7d\x7d\x7d",
            "--filename=" ++ filepathJoin (c.TempDir "." "temp-" w).1.1 "deploy.yaml"]] ∧
      (singleElement (c.TempDir "." "temp-" w).1.1 →
        callsTo .RunExecutable (runGitopsUpdateDeployment c config (Machine.init w)).2.trace
          = [.RunExecutable "kubectl" ["patch", "--local", "--output=yaml",
              "--patch=\x7b\"spec\":\x7b\"template\":\x7b\"spec\":\x7b\"containers\":[\x7b\"name\":\"app\",\"image\":\"img:v1\"\x7d]\x7d\x7d\x7d\x7d",
              "--filename=" ++ (c.TempDir "." "temp-" w).1.1 ++ "/deploy.yaml"]])) := by
  have main : callsTo .RunExecutable (runGitopsUpdateDeployment c config (Machine.init w)).2.trace
      = [.RunExecutable "kubectl" ["patch", "--local", "--output=yaml",
          "--patch=" ++
            ("\x7b\"spec\":\x7b\"template\":\x7b\"spec\":\x7b\"containers\":[\x7b\"name\":\""
              ++ config.ContainerName ++ "\",\"image\":\"" ++ r ++ "\"\x7d]\x7d\x7d\x7d\x7d"),
          "--filename=" ++ filepathJoin (c.TempDir "." "temp-" w).1.1 config.FilePath]] := by
    obtain ⟨err, tr, h1, h2, hs⟩ := run_shape c config w
    rw [h2] at hok ⊢
    cases hs with
    | tempDirFailed e he => simp [Call.method] at hok
    | cleaned d res r' evs hd hA =>
      simp only [hd]
      by_cases h0 : config.ContainerRegistryURL = "" <;>
        cases hA <;> (try (rename_i hB; cases hB)) <;> (try contradiction) <;>
        subst_vars <;> simp only [registryEvents, h0, if_true, if_false, List.cons_append,
          List.nil_append, List.map_cons, List.map_nil, Call.method, callsTo] at hok ⊢ <;>
        simp at hok ⊢
      all_goals
        rename_i hall
        have := hall (Machine.init w)
        rw [hr] at this
        simp only [Prod.mk.injEq, and_true] at this
        rw [this]
        rfl
  refine ⟨main, fun h1 h2 h3 h4 => ?_⟩
  have hr' : r = "img:v1" := by
    have := hr
    simp only [buildRegistryPlusImage, h3, if_true, Prod.mk.injEq, and_true] at this
    rw [← this, h2]
  have hp : "--patch=" ++
      ("\x7b\"spec\":\x7b\"template\":\x7b\"spec\":\x7b\"containers\":[\x7b\"name\":\""
        ++ "app" ++ "\",\"image\":\"" ++ "img:v1" ++ "\"\x7d]\x7d\x7d\x7d\x7d")
      = "--patch=\x7b\"spec\":\x7b\"template\":\x7b\"spec\":\x7b\"containers\":[\x7b\"name\":\"app\",\"image\":\"img:v1\"\x7d]\x7d\x7d\x7d\x7d" := by
    decide
  have scenario :
      callsTo .RunExecutable (runGitopsUpdateDeployment c config (Machine.init w)).2.trace
        = [.RunExecutable "kubectl" ["patch", "--local", "--output=yaml",
            "--patch=\x7b\"spec\":\x7b\"template\":\x7b\"spec\":\x7b\"containers\":[\x7b\"name\":\"app\",\"image\":\"img:v1\"\x7d]\x7d\x7d\x7d\x7d",
            "--filename=" ++ filepathJoin (c.TempDir "." "temp-" w).1.1 "deploy.yaml"]] := by
    rw [main, h1, hr', h4, hp]
  refine ⟨scenario, fun h5 => ?_⟩
  rw [scenario, filepathJoin_singleElement _ _ h5 (by decide)]
  simp [String.append_assoc]

theorem kubectl_invocation_witness :
    kubectlConfig.DeployTool = "kubectl" ∧
    (∀ ev ∈ (runGitopsUpdateDeployment okCollaborators kubectlConfig (Machine.init ())).2.trace,
      (ev.call.method = .TempDir ∨ ev.call.method = .PlainClone ∨
        ev.call.method = .ChangeBranch ∨ ev.call.method = .ContainerRegistryFromURL) →
      ev.err = none) ∧
    (buildRegistryPlusImage okCollaborators kubectlConfig (Machine.init ())).1
      = ("img:v1", none) ∧
    singleElement (okCollaborators.TempDir "." "temp-" ()).1.1 ∧
    callsTo .RunExecutable
      (runGitopsUpdateDeployment okCollaborators kubectlConfig (Machine.init ())).2.trace
      = [.RunExecutable "kubectl" ["patch", "--local", "--output=yaml",
          "--patch=\x7b\"spec\":\x7b\"template\":\x7b\"spec\":\x7b\"containers\":[\x7b\"name\":\"app\",\"image\":\"img:v1\"\x7d]\x7d\x7d\x7d\x7d",
          "--filename=temp-1/deploy.yaml"]] :=
  ⟨by decide, by decide, by decide, by decide,
    ((kubectl_invocation okCollaborators kubectlConfig () "img:v1" (by decide) (by decide)
      (by decide)).2 (by decide) (by decide) (by decide) (by decide)).2 (by decide)⟩

/-- C8: `runHelmCommand`, when name-without-tag `n` and tag `t` are computed
without error, calls `RunExecutable` exactly once, with `helm` and the six
arguments `template`, `DeploymentName`, `ChartPath`, `--values=` with the values
file, `--set=` with the repository value name, `=` and `n`, `--set=` with the
version value name, `=` and `t`; when either computation fails it returns an
error and does not call `RunExecutable`. With value names `image.repository` and
`image.tag`, `n = reg.example.com/img` and `t = v2` the last two arguments are
`--set=image.repository=reg.example.com/img` and `--set=image.tag=v2`. -/
theorem helm_invocation (c : Collaborators σ) (config : gitopsUpdateDeploymentOptions)
    (m m₁ m₂ : Machine σ) :
    (∀ n t : String, (buildRegistryPlusImageWithoutTag c config m₁).1 = (n, none) →
      (extractTagFromImageNameTag c config m₂).1 = (t, none) →
      callsTo .RunExecutable (runHelmCommand c config m).2.trace
        = callsTo .RunExecutable m.trace ++
          [.RunExecutable "helm" ["template", config.DeploymentName, config.ChartPath,
            "--values=" ++ config.HelmAdditionalValueFile,
            "--set=" ++ config.HelmValueForRespositoryAndImageName ++ "=" ++ n,
            "--set=" ++ config.HelmValueForImageVersion ++ "=" ++ t]]) ∧
    (((buildRegistryPlusImageWithoutTag c config m₁).1.2 ≠ none ∨
        (extractTagFromImageNameTag c config m₂).1.2 ≠ none) →
      (runHelmCommand c config m).1.2 ≠ none ∧
      callsTo .RunExecutable (runHelmCommand c config m).2.trace
        = callsTo .RunExecutable m.trace) ∧
    (config.HelmValueForRespositoryAndImageName = "image.repository" →
      config.HelmValueForImageVersion = "image.tag" →
      (buildRegistryPlusImageWithoutTag c config m₁).1 = ("reg.example.com/img", none) →
      (extractTagFromImageNameTag c config m₂).1 = ("v2", none) →
      callsTo .RunExecutable (runHelmCommand c config m).2.trace
        = callsTo .RunExecutable m.trace ++
          [.RunExecutable "helm" ["template", config.DeploymentName, config.ChartPath,
            "--values=" ++ config.HelmAdditionalValueFile,
            "--set=image.repository=reg.example.com/img",
            "--set=image.tag=v2"]]) := by
  have main : ∀ n t : String, (buildRegistryPlusImageWithoutTag c config m₁).1 = (n, none) →
      (extractTagFromImageNameTag c config m₂).1 = (t, none) →
      callsTo .RunExecutable (runHelmCommand c config m).2.trace
        = callsTo .RunExecutable m.trace ++
          [.RunExecutable "helm" ["template", config.DeploymentName, config.ChartPath,
            "--values=" ++ config.HelmAdditionalValueFile,
            "--set=" ++ config.HelmValueForRespositoryAndImageName ++ "=" ++ n,
            "--set=" ++ config.HelmValueForImageVersion ++ "=" ++ t]] := by
    intro n t hn ht
    rcases hN : c.ContainerImageNameFromImage config.ContainerImageNameTag with ⟨nm, en⟩
    rcases hT : c.ContainerImageTagFromImage config.ContainerImageNameTag with ⟨tg, et⟩
    rcases hR : c.ContainerRegistryFromURL config.ContainerRegistryURL with ⟨u, eu⟩
    by_cases h0 : config.ContainerRegistryURL = "" <;> cases en <;> cases et <;> cases eu <;>
      simp [buildRegistryPlusImageWithoutTag, h0, callContainerImageNameFromImage, hN,
        errorsWrap, extractTagFromImageNameTag, callContainerImageTagFromImage, hT,
        callContainerRegistryFromURL, hR] at hn ht <;>
      subst_vars <;>
      simp [runHelmCommand, buildRegistryPlusImageWithoutTag, h0,
        callContainerImageNameFromImage, hN, errorsWrap, newBuffer, callStdout,
        Machine.record, extractTagFromImageNameTag, callContainerImageTagFromImage, hT,
        callContainerRegistryFromURL, hR, callRunExecutable, writeSink, callsTo]
    all_goals
      generalize c.RunExecutable "helm" _ (c.Stdout m.world) = r
      rcases r with ⟨⟨out, e⟩, w1⟩
      cases e <;> simp [Call.method]
  refine ⟨main, ?_, ?_⟩
  · intro hfail
    rcases hN : c.ContainerImageNameFromImage config.ContainerImageNameTag with ⟨nm, en⟩
    rcases hT : c.ContainerImageTagFromImage config.ContainerImageNameTag with ⟨tg, et⟩
    rcases hR : c.ContainerRegistryFromURL config.ContainerRegistryURL with ⟨u, eu⟩
    by_cases h0 : config.ContainerRegistryURL = "" <;> cases en <;> cases et <;> cases eu <;>
      simp [buildRegistryPlusImageWithoutTag, h0, callContainerImageNameFromImage, hN,
        errorsWrap, extractTagFromImageNameTag, callContainerImageTagFromImage, hT,
        callContainerRegistryFromURL, hR] at hfail <;>
      simp [runHelmCommand, buildRegistryPlusImageWithoutTag, h0,
        callContainerImageNameFromImage, hN, errorsWrap, newBuffer, callStdout,
        Machine.record, extractTagFromImageNameTag, callContainerImageTagFromImage, hT,
        callContainerRegistryFromURL, hR, callRunExecutable, writeSink, callsTo, Call.method]
  · intro hv1 hv2 hn ht
    have hs1 : "--set=" ++ "image.repository" ++ "=" ++ "reg.example.com/img"
        = "--set=image.repository=reg.example.com/img" := by decide
    have hs2 : "--set=" ++ "image.tag" ++ "=" ++ "v2" = "--set=image.tag=v2" := by decide
    rw [main _ _ hn ht, hv1, hv2, hs1, hs2]

theorem helm_invocation_witness :
    ((buildRegistryPlusImageWithoutTag okCollaborators helmConfig (Machine.init ())).1
        = ("reg.example.com/img", none) ∧
      (extractTagFromImageNameTag okCollaborators helmConfig (Machine.init ())).1
        = ("v2", none) ∧
      helmConfig.HelmValueForRespositoryAndImageName = "image.repository" ∧
      helmConfig.HelmValueForImageVersion = "image.tag" ∧
      callsTo .RunExecutable (runHelmCommand okCollaborators helmConfig (Machine.init ())).2.trace
        = [.RunExecutable "helm" ["template", "app", "./chart", "--values=vals.yaml",
            "--set=image.repository=reg.example.com/img", "--set=image.tag=v2"]]) ∧
    (((buildRegistryPlusImageWithoutTag tagFails helmConfig (Machine.init ())).1.2 ≠ none ∨
        (extractTagFromImageNameTag tagFails helmConfig (Machine.init ())).1.2 ≠ none) ∧
      (runHelmCommand tagFails helmConfig (Machine.init ())).1.2 ≠ none ∧
      callsTo .RunExecutable (runHelmCommand tagFails helmConfig (Machine.init ())).2.trace
        = []) :=
  ⟨⟨by decide, by decide, by decide, by decide,
    (helm_invocation okCollaborators helmConfig (Machine.init ()) (Machine.init ())
      (Machine.init ())).2.2 (by decide) (by decide) (by decide) (by decide)⟩,
   ⟨by decide,
    (helm_invocation tagFails helmConfig (Machine.init ()) (Machine.init ())
      (Machine.init ())).2.1 (by decide)⟩⟩

end Theorems

end GitopsUpdateDeployment
